import Mathlib

/-
Verification development for the CVIntel CV-scoring application.

The embedding covers:
  * the Scoring Engine `calculateScores` from `src/App.tsx` (pure function
    from categorical signals to five dimension scores, an overall score and
    a risk tier);
  * the orchestration pipeline `runAnalysis` from `src/App.tsx`, modelled
    over injected outcomes for each remote stage;
  * the persistence handlers `POST /api/analysis/save` and
    `GET /api/history/:userId` from `server.ts`, modelled over an explicit
    in-memory store with injected insert outcomes;
  * the JSON-defaulting behaviour of the Gemini service wrappers
    (`parseCV`, `detectSignals`, `explainScores`, `optimizeBullets`),
    modelled over an abstract JSON parse oracle standing for the
    platform-provided `JSON.parse`.

JavaScript strings are modelled as `String`; JavaScript numbers appearing in
the signals are modelled as `Int` (all comparisons in the code are integral);
the JS truthiness test `if (s)` on a string field is modelled as `s ≠ ""`.
-/

set_option maxHeartbeats 1000000

namespace CVIntel

/-- Structure/formatting signal sub-object, per the response schema of the
signal-detection prompt 2A in the Gemini service. -/
structure StructureSignals where
  missing_sections : List String
  section_order_quality : String
  formatting_consistency : String
  estimated_cv_length : Int
  ats_risk_elements : List String
deriving DecidableEq

/-- Keyword signal sub-object, per the response schema of prompt 2B. -/
structure KeywordSignals where
  core_role_keywords_present : List String
  missing_critical_keywords : List String
  keyword_density_level : String
  signs_of_keyword_stuffing : String
deriving DecidableEq

/-- Impact signal sub-object, per the response schema of prompt 2C. -/
structure ImpactSignals where
  percentage_of_bullets_with_metrics : Int
  action_verb_strength : String
  achievement_framing_level : String
  responsibility_only_bullets : Int
deriving DecidableEq

/-- Alignment signal sub-object, per the response schema of prompt 2D.
`industry_language_presence` is documented there as a "yes / no" string. -/
structure AlignmentSignals where
  title_alignment : String
  experience_relevance : String
  seniority_consistency : String
  industry_language_presence : String
deriving DecidableEq

/-- Clarity signal sub-object, per the response schema of prompt 2E. -/
structure ClaritySignals where
  grammar_error_frequency : String
  sentence_clarity : String
  tone_professionalism : String
  tense_consistency : String
deriving DecidableEq

/-- The `Signals` object assembled by `detectSignals`. -/
structure Signals where
  «structure» : StructureSignals
  keywords : KeywordSignals
  impact : ImpactSignals
  alignment : AlignmentSignals
  clarity : ClaritySignals
deriving DecidableEq

/-- The `ScoreData` record produced by `calculateScores` in `src/App.tsx`. -/
structure ScoreData where
  «structure» : Nat
  keyword : Nat
  impact : Nat
  alignment : Nat
  clarity : Nat
  overall : Nat
  atsRisk : String
deriving DecidableEq

/-- Risk-tier assignment at the end of `calculateScores`:
`atsRisk` starts as 'High', becomes 'Low' when `overall >= 75` and
'Medium' when `overall >= 50`. -/
def atsRiskOf (overall : Nat) : String :=
  if overall ≥ 75 then "Low" else if overall ≥ 50 then "Medium" else "High"

/-- The Scoring Engine, translated from `calculateScores` in `src/App.tsx`.
Each `+=` under an `if` becomes an if-then-else summand.  The alignment
condition `if (signals.alignment.industry_language_presence)` is a JS
truthiness test on a string, i.e. it holds iff the string is non-empty. -/
def calculateScores (signals : Signals) : ScoreData :=
  let s := 10
    + (if signals.«structure».section_order_quality = "good" then 4 else 0)
    + (if signals.«structure».formatting_consistency = "good" then 4 else 0)
    + (if signals.«structure».ats_risk_elements.length = 0 then 2 else 0)
  let keyword := 5
    + (if signals.keywords.keyword_density_level = "moderate" then 5 else 0)
    + (if signals.keywords.core_role_keywords_present.length > 5 then 10 else 0)
  let impact := 5
    + (if signals.impact.percentage_of_bullets_with_metrics > 40 then 8 else 0)
    + (if signals.impact.action_verb_strength = "strong" then 4 else 0)
    + (if signals.impact.achievement_framing_level = "high" then 3 else 0)
  let alignment := 5
    + (if signals.alignment.title_alignment = "high" then 6 else 0)
    + (if signals.alignment.experience_relevance = "high" then 6 else 0)
    + (if signals.alignment.industry_language_presence ≠ "" then 3 else 0)
  let clarity := 5
    + (if signals.clarity.grammar_error_frequency = "none" then 6 else 0)
    + (if signals.clarity.sentence_clarity = "good" then 6 else 0)
    + (if signals.clarity.tone_professionalism = "professional" then 3 else 0)
  let overall := s + keyword + impact + alignment + clarity
  { «structure» := s, keyword := keyword, impact := impact,
    alignment := alignment, clarity := clarity, overall := overall,
    atsRisk := atsRiskOf overall }

/-- A Signals input with every categorical judgment at its worst enumerated
value: poor ordering and formatting, a non-empty ATS-risk list, low keyword
density, no core keywords, no metrics, weak verbs, low framing, low title
alignment, low relevance, `industry_language_presence` = "no", frequent
grammar errors, poor clarity, informal tone. -/
def worstSignals : Signals :=
  { «structure» :=
      { missing_sections := []
        section_order_quality := "poor"
        formatting_consistency := "poor"
        estimated_cv_length := 2
        ats_risk_elements := ["tables"] }
    keywords :=
      { core_role_keywords_present := []
        missing_critical_keywords := ["sql"]
        keyword_density_level := "low"
        signs_of_keyword_stuffing := "no" }
    impact :=
      { percentage_of_bullets_with_metrics := 0
        action_verb_strength := "weak"
        achievement_framing_level := "low"
        responsibility_only_bullets := 5 }
    alignment :=
      { title_alignment := "low"
        experience_relevance := "low"
        seniority_consistency := "no"
        industry_language_presence := "no" }
    clarity :=
      { grammar_error_frequency := "high"
        sentence_clarity := "poor"
        tone_professionalism := "informal"
        tense_consistency := "inconsistent" } }

/-- A Signals input with every boolean/categorical condition at its best
value, so that every bonus increment fires. -/
def allGoodSignals : Signals :=
  { «structure» :=
      { missing_sections := []
        section_order_quality := "good"
        formatting_consistency := "good"
        estimated_cv_length := 2
        ats_risk_elements := [] }
    keywords :=
      { core_role_keywords_present := ["a", "b", "c", "d", "e", "f"]
        missing_critical_keywords := []
        keyword_density_level := "moderate"
        signs_of_keyword_stuffing := "no" }
    impact :=
      { percentage_of_bullets_with_metrics := 60
        action_verb_strength := "strong"
        achievement_framing_level := "high"
        responsibility_only_bullets := 0 }
    alignment :=
      { title_alignment := "high"
        experience_relevance := "high"
        seniority_consistency := "yes"
        industry_language_presence := "yes" }
    clarity :=
      { grammar_error_frequency := "none"
        sentence_clarity := "good"
        tone_professionalism := "professional"
        tense_consistency := "consistent" } }

/-- A report as produced by `explainScores` and consumed by the save handler:
`{strengths, weaknesses, ats_risk_explanation}`. -/
structure ReportData where
  strengths : List String
  weaknesses : List String
  ats_risk_explanation : String
deriving DecidableEq

/-- A row of the `cvs` table: `user_id` and the stringified parsed CV, with
the store-generated `id` and `created_at`. -/
structure CvRow where
  id : Nat
  user_id : Nat
  parsed_text : String
  created_at : Nat
deriving DecidableEq

/-- A row of the `cv_scores` table, as inserted by `POST /api/analysis/save`. -/
structure ScoreRow where
  cv_id : Nat
  structure_score : Nat
  keyword_score : Nat
  impact_score : Nat
  alignment_score : Nat
  clarity_score : Nat
  overall_score : Nat
  ats_risk_level : String
  created_at : Nat
deriving DecidableEq

/-- A row of the `cv_reports` table, as inserted by `POST /api/analysis/save`. -/
structure ReportRow where
  cv_id : Nat
  strengths : List String
  weaknesses : List String
  ats_risk_explanation : String
deriving DecidableEq

/-- The persistence store behind the Supabase interface: three insert-only
tables, a fresh-id source for `cvs.id`, and a clock for `created_at`. -/
structure Store where
  cvs : List CvRow
  cv_scores : List ScoreRow
  cv_reports : List ReportRow
  nextId : Nat
  clock : Nat
deriving DecidableEq

/-- The `POST /api/analysis/save` handler from `server.ts`: insert the CV
row, then the score row, then the report row, each step aborting the handler
(leaving earlier inserts in place) when the store reports an error.  The
booleans `cvFail`, `scoreFail`, `reportFail` inject the store's outcome for
each of the three inserts.  Returns the updated store and the HTTP result
(`.ok cvId` for `{success, cvId}`, `.error` for the 500 path). -/
def saveAnalysis (st : Store) (userId : Nat) (parsedText : String)
    (scores : ScoreData) (report : ReportData)
    (cvFail scoreFail reportFail : Bool) : Store × Except String Nat :=
  if cvFail then
    (st, .error "cv insert failed")
  else
    let cvId := st.nextId
    let st1 : Store :=
      { st with
          cvs := st.cvs ++
            [{ id := cvId, user_id := userId, parsed_text := parsedText,
               created_at := st.clock }]
          nextId := st.nextId + 1
          clock := st.clock + 1 }
    if scoreFail then
      (st1, .error "score insert failed")
    else
      let st2 : Store :=
        { st1 with
            cv_scores := st1.cv_scores ++
              [{ cv_id := cvId,
                 structure_score := scores.«structure»,
                 keyword_score := scores.keyword,
                 impact_score := scores.impact,
                 alignment_score := scores.alignment,
                 clarity_score := scores.clarity,
                 overall_score := scores.overall,
                 ats_risk_level := scores.atsRisk,
                 created_at := st1.clock }]
            clock := st1.clock + 1 }
      if reportFail then
        (st2, .error "report insert failed")
      else
        let st3 : Store :=
          { st2 with
              cv_reports := st2.cv_reports ++
                [{ cv_id := cvId,
                   strengths := report.strengths,
                   weaknesses := report.weaknesses,
                   ats_risk_explanation := report.ats_risk_explanation }]
              clock := st2.clock + 1 }
        (st3, .ok cvId)

/-- One record of the `GET /api/history/:userId` response: the score row
fields together with the joined report fields (empty defaults when the CV has
no report row). -/
structure HistoryItem where
  cv_id : Nat
  structure_score : Nat
  keyword_score : Nat
  impact_score : Nat
  alignment_score : Nat
  clarity_score : Nat
  overall_score : Nat
  ats_risk_level : String
  created_at : Nat
  strengths : List String
  weaknesses : List String
  ats_risk_explanation : Option String
deriving DecidableEq

/-- Insert a score row into a list sorted by `created_at` descending. -/
def insertByCreatedDesc (r : ScoreRow) : List ScoreRow → List ScoreRow
  | [] => [r]
  | x :: xs =>
      if x.created_at ≤ r.created_at then r :: x :: xs
      else x :: insertByCreatedDesc r xs

/-- Sort score rows by `created_at` descending (the `order('created_at',
{ascending: false})` clause of the history query). -/
def sortByCreatedDesc : List ScoreRow → List ScoreRow
  | [] => []
  | x :: xs => insertByCreatedDesc x (sortByCreatedDesc xs)

/-- The `GET /api/history/:userId` handler from `server.ts`: all `cv_scores`
rows whose CV (inner join on `cv_id`) belongs to the user, ordered by
`created_at` descending, each mapped with its first `cv_reports` row
(`JSON.parse` of the stored arrays, `[]` when absent). -/
def getHistory (st : Store) (userId : Nat) : List HistoryItem :=
  let rows := st.cv_scores.filter fun r =>
    match st.cvs.find? (fun c => c.id = r.cv_id) with
    | some c => c.user_id = userId
    | none => false
  (sortByCreatedDesc rows).map fun r =>
    let rep := st.cv_reports.find? (fun p => p.cv_id = r.cv_id)
    { cv_id := r.cv_id,
      structure_score := r.structure_score,
      keyword_score := r.keyword_score,
      impact_score := r.impact_score,
      alignment_score := r.alignment_score,
      clarity_score := r.clarity_score,
      overall_score := r.overall_score,
      ats_risk_level := r.ats_risk_level,
      created_at := r.created_at,
      strengths := (rep.map (·.strengths)).getD [],
      weaknesses := (rep.map (·.weaknesses)).getD [],
      ats_risk_explanation := rep.map (·.ats_risk_explanation) }

/-- The alert message shown by the `catch` block of `runAnalysis`. -/
def analysisFailedAlert : String := "Analysis failed. Please try again."

/-- Observable outcome of one run of `runAnalysis`: the final view, the
analysis result if it was set, whether `calculateScores` ran (and on what),
whether `explainScores` produced a report, whether the save endpoint was
called, and the alerts shown.  `P` is the parsed-CV payload type, `R` the
report payload type. -/
structure RunOutcome (P R : Type) where
  view : String
  analysisResult : Option (P × ScoreData × R)
  scoresComputed : Option ScoreData
  reportProduced : Option R
  saveCalled : Bool
  alerts : List String
deriving DecidableEq

/-- Outcome of the `catch` block before any score was computed: the alert
fires and the view returns to the landing page. -/
def abortedOutcome (P R : Type) : RunOutcome P R :=
  { view := "landing", analysisResult := none, scoresComputed := none,
    reportProduced := none, saveCalled := false,
    alerts := [analysisFailedAlert] }

/-- The orchestration pipeline `runAnalysis` from `src/App.tsx`, with each
remote stage's behaviour injected: `auth` stands for the `handleAuth` fetch,
`parse` for `parseCV`, `detect` for `detectSignals`, `explain` for
`explainScores`, and `save` for the `/api/analysis/save` fetch.  `view0` is
the view state before the call, `user` the `user` React state the save guard
reads.  The guard, the try/catch, the stage order and the state updates
follow the source; any stage error jumps to the catch block, which shows one
generic alert and resets the view. -/
def runAnalysis {P U R : Type} (view0 cvText email targetRole : String)
    (user : Option U)
    (auth : Except String U)
    (parse : String → Except String P)
    (detect : P → Except String Signals)
    (explain : ScoreData → Signals → Except String R)
    (save : Except String Unit) : RunOutcome P R :=
  if cvText = "" ∨ email = "" ∨ targetRole = "" then
    { view := view0, analysisResult := none, scoresComputed := none,
      reportProduced := none, saveCalled := false, alerts := [] }
  else
    match auth with
    | .error _ => abortedOutcome P R
    | .ok _ =>
      match parse cvText with
      | .error _ => abortedOutcome P R
      | .ok parsed =>
        match detect parsed with
        | .error _ => abortedOutcome P R
        | .ok signals =>
          let scores := calculateScores signals
          match explain scores signals with
          | .error _ =>
            { view := "landing", analysisResult := none,
              scoresComputed := some scores, reportProduced := none,
              saveCalled := false, alerts := [analysisFailedAlert] }
          | .ok report =>
            let result := (parsed, scores, report)
            match user with
            | none =>
              { view := "report", analysisResult := some result,
                scoresComputed := some scores, reportProduced := some report,
                saveCalled := false, alerts := [] }
            | some _ =>
              match save with
              | .ok _ =>
                { view := "report", analysisResult := some result,
                  scoresComputed := some scores,
                  reportProduced := some report,
                  saveCalled := true, alerts := [] }
              | .error _ =>
                { view := "landing", analysisResult := some result,
                  scoresComputed := some scores,
                  reportProduced := some report,
                  saveCalled := true, alerts := [analysisFailedAlert] }

/-- A JSON value, as produced by the platform `JSON.parse`. -/
inductive Json where
  | null : Json
  | bool : Bool → Json
  | num : Int → Json
  | str : String → Json
  | arr : List Json → Json
  | obj : List (String × Json) → Json

/-- The source text of the empty JSON object literal used as the `||`
fallback in the Gemini service wrappers. -/
def emptyObjText : String := "\x7b\x7d"

/-- The source text of the empty JSON array literal used as the `||`
fallback in `optimizeBullets`. -/
def emptyArrText : String := "[]"

/-- JavaScript `text || d` for an optional string response field: the
default replaces both an absent (`undefined`) and an empty (falsy) string. -/
def orDefault (text : Option String) (d : String) : String :=
  match text with
  | none => d
  | some s => if s = "" then d else s

/-- The shape shared by the service wrappers: `JSON.parse(response.text ||
d)`, over an abstract parse oracle standing for the platform `JSON.parse`
(`.error` when `JSON.parse` would throw). -/
def parseStage (jsonParse : String → Except Unit Json) (d : String)
    (text : Option String) : Except Unit Json :=
  jsonParse (orDefault text d)

/-- `parseCV`'s result handling: `JSON.parse(response.text || "{}")`. -/
def parseCVResult (jsonParse : String → Except Unit Json)
    (text : Option String) : Except Unit Json :=
  parseStage jsonParse emptyObjText text

/-- `detectSignals`'s result handling: the five sub-responses are each
parsed with `JSON.parse(x.text || "{}")`; a parse failure in any of them
fails the whole stage. -/
def detectSignalsResult (jsonParse : String → Except Unit Json)
    (t1 t2 t3 t4 t5 : Option String) :
    Except Unit (Json × Json × Json × Json × Json) := do
  let s ← parseStage jsonParse emptyObjText t1
  let k ← parseStage jsonParse emptyObjText t2
  let i ← parseStage jsonParse emptyObjText t3
  let a ← parseStage jsonParse emptyObjText t4
  let c ← parseStage jsonParse emptyObjText t5
  pure (s, k, i, a, c)

/-- `explainScores`'s result handling: `JSON.parse(response.text || "{}")`. -/
def explainScoresResult (jsonParse : String → Except Unit Json)
    (text : Option String) : Except Unit Json :=
  parseStage jsonParse emptyObjText text

/-- `optimizeBullets`'s result handling: `JSON.parse(response.text || "[]")`. -/
def optimizeBulletsResult (jsonParse : String → Except Unit Json)
    (text : Option String) : Except Unit Json :=
  parseStage jsonParse emptyArrText text

/-- Empty-or-absent provider text: the `undefined`/`""` cases in which the
`||` fallback kicks in. -/
def emptyText (t : Option String) : Prop :=
  t = none ∨ t = some ""

instance (t : Option String) : Decidable (emptyText t) := by
  unfold emptyText; infer_instance

/-- Replace only the keyword-density judgment of a Signals input, leaving
every other field unchanged. -/
def setKeywordDensity (s : Signals) (d : String) : Signals :=
  { s with keywords := { s.keywords with keyword_density_level := d } }

/-- A Signals input whose overall score is exactly 75: structure 18,
keyword 20, impact 12, alignment 8, clarity 17. -/
def signals75 : Signals :=
  { «structure» :=
      { missing_sections := [], section_order_quality := "good",
        formatting_consistency := "good", estimated_cv_length := 2,
        ats_risk_elements := ["tables"] }
    keywords :=
      { core_role_keywords_present := ["a", "b", "c", "d", "e", "f"],
        missing_critical_keywords := [], keyword_density_level := "moderate",
        signs_of_keyword_stuffing := "no" }
    impact :=
      { percentage_of_bullets_with_metrics := 10,
        action_verb_strength := "strong",
        achievement_framing_level := "high",
        responsibility_only_bullets := 2 }
    alignment :=
      { title_alignment := "low", experience_relevance := "low",
        seniority_consistency := "no", industry_language_presence := "no" }
    clarity :=
      { grammar_error_frequency := "none", sentence_clarity := "good",
        tone_professionalism := "informal", tense_consistency := "consistent" } }

/-- A Signals input whose overall score is exactly 74: structure 20,
keyword 20, impact 9, alignment 5, clarity 20. -/
def signals74 : Signals :=
  { «structure» :=
      { missing_sections := [], section_order_quality := "good",
        formatting_consistency := "good", estimated_cv_length := 2,
        ats_risk_elements := [] }
    keywords :=
      { core_role_keywords_present := ["a", "b", "c", "d", "e", "f"],
        missing_critical_keywords := [], keyword_density_level := "moderate",
        signs_of_keyword_stuffing := "no" }
    impact :=
      { percentage_of_bullets_with_metrics := 10,
        action_verb_strength := "strong",
        achievement_framing_level := "medium",
        responsibility_only_bullets := 2 }
    alignment :=
      { title_alignment := "low", experience_relevance := "low",
        seniority_consistency := "no", industry_language_presence := "" }
    clarity :=
      { grammar_error_frequency := "none", sentence_clarity := "good",
        tone_professionalism := "professional",
        tense_consistency := "consistent" } }

/-- A Signals input whose overall score is exactly 50: structure 20,
keyword 5, impact 12, alignment 5, clarity 8. -/
def signals50 : Signals :=
  { «structure» :=
      { missing_sections := [], section_order_quality := "good",
        formatting_consistency := "good", estimated_cv_length := 2,
        ats_risk_elements := [] }
    keywords :=
      { core_role_keywords_present := [], missing_critical_keywords := [],
        keyword_density_level := "low", signs_of_keyword_stuffing := "no" }
    impact :=
      { percentage_of_bullets_with_metrics := 10,
        action_verb_strength := "strong",
        achievement_framing_level := "high",
        responsibility_only_bullets := 2 }
    alignment :=
      { title_alignment := "low", experience_relevance := "low",
        seniority_consistency := "no", industry_language_presence := "" }
    clarity :=
      { grammar_error_frequency := "low", sentence_clarity := "poor",
        tone_professionalism := "professional",
        tense_consistency := "consistent" } }

/-- A Signals input whose overall score is exactly 49: structure 12,
keyword 15, impact 9, alignment 5, clarity 8. -/
def signals49 : Signals :=
  { «structure» :=
      { missing_sections := [], section_order_quality := "poor",
        formatting_consistency := "poor", estimated_cv_length := 2,
        ats_risk_elements := [] }
    keywords :=
      { core_role_keywords_present := ["a", "b", "c", "d", "e", "f"],
        missing_critical_keywords := [], keyword_density_level := "low",
        signs_of_keyword_stuffing := "no" }
    impact :=
      { percentage_of_bullets_with_metrics := 10,
        action_verb_strength := "strong",
        achievement_framing_level := "medium",
        responsibility_only_bullets := 2 }
    alignment :=
      { title_alignment := "low", experience_relevance := "low",
        seniority_consistency := "no", industry_language_presence := "" }
    clarity :=
      { grammar_error_frequency := "low", sentence_clarity := "poor",
        tone_professionalism := "professional",
        tense_consistency := "consistent" } }

/-- The structure dimension of `calculateScores`, written out. -/
lemma calculateScores_structure_eq (s : Signals) :
    (calculateScores s).«structure» = 10
      + (if s.«structure».section_order_quality = "good" then 4 else 0)
      + (if s.«structure».formatting_consistency = "good" then 4 else 0)
      + (if s.«structure».ats_risk_elements.length = 0 then 2 else 0) := rfl

/-- The keyword dimension of `calculateScores`, written out. -/
lemma calculateScores_keyword_eq (s : Signals) :
    (calculateScores s).keyword = 5
      + (if s.keywords.keyword_density_level = "moderate" then 5 else 0)
      + (if s.keywords.core_role_keywords_present.length > 5 then 10 else 0) := rfl

/-- The impact dimension of `calculateScores`, written out. -/
lemma calculateScores_impact_eq (s : Signals) :
    (calculateScores s).impact = 5
      + (if s.impact.percentage_of_bullets_with_metrics > 40 then 8 else 0)
      + (if s.impact.action_verb_strength = "strong" then 4 else 0)
      + (if s.impact.achievement_framing_level = "high" then 3 else 0) := rfl

/-- The alignment dimension of `calculateScores`, written out. -/
lemma calculateScores_alignment_eq (s : Signals) :
    (calculateScores s).alignment = 5
      + (if s.alignment.title_alignment = "high" then 6 else 0)
      + (if s.alignment.experience_relevance = "high" then 6 else 0)
      + (if s.alignment.industry_language_presence ≠ "" then 3 else 0) := rfl

/-- The clarity dimension of `calculateScores`, written out. -/
lemma calculateScores_clarity_eq (s : Signals) :
    (calculateScores s).clarity = 5
      + (if s.clarity.grammar_error_frequency = "none" then 6 else 0)
      + (if s.clarity.sentence_clarity = "good" then 6 else 0)
      + (if s.clarity.tone_professionalism = "professional" then 3 else 0) := rfl

/-- The overall score is definitionally the sum of the five dimensions. -/
lemma calculateScores_overall_eq (s : Signals) :
    (calculateScores s).overall =
      (calculateScores s).«structure» + (calculateScores s).keyword +
      (calculateScores s).impact + (calculateScores s).alignment +
      (calculateScores s).clarity := rfl

/-- The risk tier is definitionally `atsRiskOf` of the overall score. -/
lemma calculateScores_atsRisk_eq (s : Signals) :
    (calculateScores s).atsRisk = atsRiskOf ((calculateScores s).overall) := rfl

/-- Case analysis of `atsRiskOf` as three exact characterisations. -/
lemma atsRiskOf_spec (n : Nat) :
    (atsRiskOf n = "Low" ↔ 75 ≤ n) ∧
    (atsRiskOf n = "Medium" ↔ 50 ≤ n ∧ n < 75) ∧
    (atsRiskOf n = "High" ↔ n < 50) := by
  unfold atsRiskOf
  split_ifs with h1 h2
  · exact ⟨iff_of_true rfl h1,
      iff_of_false (by decide) (by omega),
      iff_of_false (by decide) (by omega)⟩
  · exact ⟨iff_of_false (by decide) (by omega),
      iff_of_true rfl (by omega),
      iff_of_false (by decide) (by omega)⟩
  · exact ⟨iff_of_false (by decide) (by omega),
      iff_of_false (by decide) (by omega),
      iff_of_true rfl (by omega)⟩

/-- C1: at the all-worst Signals input (every categorical judgment at its
worst enumerated value, `industry_language_presence` = "no", no metrics,
non-empty ATS-risk list), the Scoring Engine does NOT return dimension
scores 10, 5, 5, 5, 5 and overall 30 as the spec states: the condition
`if (signals.alignment.industry_language_presence)` truth-tests the
non-empty string "no", so the +3 industry-language bonus fires and the code
returns alignment 8 and overall 33 (the risk tier is still "High"). -/
theorem calculateScores_allWorst_eval :
    calculateScores worstSignals =
      { «structure» := 10, keyword := 5, impact := 5, alignment := 8,
        clarity := 5, overall := 33, atsRisk := "High" } ∧
    (calculateScores worstSignals).alignment ≠ 5 ∧
    (calculateScores worstSignals).overall ≠ 30 := by
  refine ⟨by decide, by decide, by decide⟩

/-- C3: for every Signals input each dimension score lies in
[base, base+maxBonus] — structure in [10, 20], the other four in [5, 20] —
and the overall score is exactly the sum of the five dimension scores. -/
theorem calculateScores_dimension_bounds (s : Signals) :
    10 ≤ (calculateScores s).«structure» ∧ (calculateScores s).«structure» ≤ 20 ∧
    5 ≤ (calculateScores s).keyword ∧ (calculateScores s).keyword ≤ 20 ∧
    5 ≤ (calculateScores s).impact ∧ (calculateScores s).impact ≤ 20 ∧
    5 ≤ (calculateScores s).alignment ∧ (calculateScores s).alignment ≤ 20 ∧
    5 ≤ (calculateScores s).clarity ∧ (calculateScores s).clarity ≤ 20 ∧
    (calculateScores s).overall =
      (calculateScores s).«structure» + (calculateScores s).keyword +
      (calculateScores s).impact + (calculateScores s).alignment +
      (calculateScores s).clarity := by
  refine ⟨?_, ?_, ?_, ?_, ?_, ?_, ?_, ?_, ?_, ?_, calculateScores_overall_eq s⟩ <;>
    simp only [calculateScores_structure_eq, calculateScores_keyword_eq,
      calculateScores_impact_eq, calculateScores_alignment_eq,
      calculateScores_clarity_eq] <;>
    split_ifs <;> omega

/-- C4: for every Signals input the risk tier is exactly "Low" iff
overall ≥ 75, "Medium" iff 50 ≤ overall < 75, and "High" iff overall < 50;
in particular there are inputs reaching overall 75 (Low), 74 (Medium),
50 (Medium) and 49 (High), settling each boundary. -/
theorem calculateScores_risk_tier_boundaries (s : Signals) :
    ((calculateScores s).atsRisk = "Low" ↔ 75 ≤ (calculateScores s).overall) ∧
    ((calculateScores s).atsRisk = "Medium" ↔
      50 ≤ (calculateScores s).overall ∧ (calculateScores s).overall < 75) ∧
    ((calculateScores s).atsRisk = "High" ↔ (calculateScores s).overall < 50) ∧
    (calculateScores signals75).overall = 75 ∧
    (calculateScores signals75).atsRisk = "Low" ∧
    (calculateScores signals74).overall = 74 ∧
    (calculateScores signals74).atsRisk = "Medium" ∧
    (calculateScores signals50).overall = 50 ∧
    (calculateScores signals50).atsRisk = "Medium" ∧
    (calculateScores signals49).overall = 49 ∧
    (calculateScores signals49).atsRisk = "High" := by
  have h := atsRiskOf_spec ((calculateScores s).overall)
  rw [calculateScores_atsRisk_eq]
  exact ⟨h.1, h.2.1, h.2.2, by decide, by decide, by decide, by decide,
    by decide, by decide, by decide, by decide⟩

/-- C7: the Scoring Engine is deterministic and idempotent — repeated
invocations on the same Signals input give the same Scores — and it is total
on well-typed input: in particular on the all-conditions-good input it
evaluates to the definite value (20, 20, 20, 20, 20, overall 100, "Low"). -/
theorem calculateScores_deterministic_total :
    (∀ s : Signals, calculateScores s = calculateScores s) ∧
    calculateScores allGoodSignals =
      { «structure» := 20, keyword := 20, impact := 20, alignment := 20,
        clarity := 20, overall := 100, atsRisk := "Low" } :=
  ⟨fun _ => rfl, by decide⟩

/-- C8: any Signals input whose structure sub-object has good section
ordering, good formatting consistency and an empty ATS-risk list receives
structure score exactly 20 = 10 + 4 + 4 + 2, whatever the other
sub-objects hold. -/
theorem calculateScores_structure_all_good (s : Signals)
    (h1 : s.«structure».section_order_quality = "good")
    (h2 : s.«structure».formatting_consistency = "good")
    (h3 : s.«structure».ats_risk_elements = []) :
    (calculateScores s).«structure» = 20 := by
  rw [calculateScores_structure_eq, h1, h2, h3]
  decide

/-- Witness for C8: the all-good Signals input satisfies the three structure
hypotheses and indeed scores structure 20. -/
theorem calculateScores_structure_all_good_witness :
    (calculateScores allGoodSignals).«structure» = 20 :=
  calculateScores_structure_all_good allGoodSignals rfl rfl rfl

/-- C10: the +5 density bonus fires only when `keyword_density_level` is
exactly "moderate" — with any other value the keyword score is just
5 plus the core-keywords bonus — so a CV with "high" density never scores
higher on keywords than the same CV with "moderate" density. -/
theorem keyword_density_bonus_moderate_only (s : Signals) :
    (s.keywords.keyword_density_level ≠ "moderate" →
      (calculateScores s).keyword = 5 +
        (if s.keywords.core_role_keywords_present.length > 5 then 10 else 0)) ∧
    (calculateScores (setKeywordDensity s "high")).keyword ≤
      (calculateScores (setKeywordDensity s "moderate")).keyword := by
  constructor
  · intro h
    rw [calculateScores_keyword_eq, if_neg h]
  · rw [calculateScores_keyword_eq, calculateScores_keyword_eq]
    simp only [setKeywordDensity]
    split_ifs <;> omega

/-- Witness for C10: the all-worst Signals input has density "low" ≠
"moderate", receives keyword score 5 + 0, and its "high"-density variant
scores no higher on keywords than its "moderate"-density variant. -/
theorem keyword_density_bonus_moderate_only_witness :
    (calculateScores worstSignals).keyword = 5 +
      (if worstSignals.keywords.core_role_keywords_present.length > 5
        then 10 else 0) ∧
    (calculateScores (setKeywordDensity worstSignals "high")).keyword ≤
      (calculateScores (setKeywordDensity worstSignals "moderate")).keyword :=
  ⟨(keyword_density_bonus_moderate_only worstSignals).1 (by decide),
   (keyword_density_bonus_moderate_only worstSignals).2⟩

/-- C5: whenever the run reaches signal detection (non-empty CV text, email
and target role; auth and parse succeed) and `detectSignals` fails, the
pipeline aborts through the catch block: no score is computed, no report is
produced, the save endpoint is never called, the single generic alert is
shown and the view returns to landing with no analysis result set. -/
theorem runAnalysis_detect_failure_aborts {P U R : Type}
    (view0 cvText email targetRole : String) (user : Option U) (u : U)
    (auth : Except String U) (parse : String → Except String P)
    (detect : P → Except String Signals)
    (explain : ScoreData → Signals → Except String R)
    (save : Except String Unit) (p : P) (e : String)
    (hcv : cvText ≠ "") (hem : email ≠ "") (htr : targetRole ≠ "")
    (hauth : auth = .ok u) (hparse : parse cvText = .ok p)
    (hdetect : detect p = .error e) :
    runAnalysis view0 cvText email targetRole user auth parse detect
        explain save = abortedOutcome P R ∧
    (abortedOutcome P R).scoresComputed = none ∧
    (abortedOutcome P R).reportProduced = none ∧
    (abortedOutcome P R).saveCalled = false ∧
    (abortedOutcome P R).alerts = [analysisFailedAlert] ∧
    (abortedOutcome P R).view = "landing" ∧
    (abortedOutcome P R).analysisResult = none := by
  refine ⟨?_, rfl, rfl, rfl, rfl, rfl, rfl⟩
  unfold runAnalysis
  rw [if_neg (by simp [hcv, hem, htr])]
  rw [hauth]; dsimp only
  rw [hparse]; dsimp only
  rw [hdetect]

/-- Witness for C5: a concrete run (all payload types `Unit`) with non-empty
inputs, successful auth and parse, and a failing detection stage aborts with
the generic alert and no score, report or save call. -/
theorem runAnalysis_detect_failure_aborts_witness :
    @runAnalysis Unit Unit Unit "landing" "cv text" "a@b.c" "Engineer"
        (some ()) (.ok ()) (fun _ => .ok ()) (fun _ => .error "boom")
        (fun _ _ => .ok ()) (.ok ()) = abortedOutcome Unit Unit :=
  (runAnalysis_detect_failure_aborts "landing" "cv text" "a@b.c" "Engineer"
    (some ()) () (.ok ()) (fun _ => .ok ()) (fun _ => .error "boom")
    (fun _ _ => .ok ()) (.ok ()) () "boom"
    (by decide) (by decide) (by decide) rfl rfl rfl).1

/-- The store in its initial state: empty tables, first generated id 1. -/
def emptyStore : Store :=
  { cvs := [], cv_scores := [], cv_reports := [], nextId := 1, clock := 0 }

/-- A concrete report payload used in concrete runs of the save handler. -/
def sampleReport : ReportData :=
  { strengths := ["s1", "s2", "s3"], weaknesses := ["w1", "w2", "w3"],
    ats_risk_explanation := "low risk" }

/-- Counterexample to C2: starting from the empty store, a run of
`POST /api/analysis/save` in which the CV insert succeeds and the score
insert fails leaves the CV row persisted with no score row and no report
row — an orphaned row remains, so the three inserts are not atomic. -/
theorem saveAnalysis_not_atomic_cex :
    (saveAnalysis emptyStore 7 "cvtext" (calculateScores allGoodSignals)
        sampleReport false true false).1.cvs.length = 1 ∧
    (saveAnalysis emptyStore 7 "cvtext" (calculateScores allGoodSignals)
        sampleReport false true false).1.cv_scores = [] ∧
    (saveAnalysis emptyStore 7 "cvtext" (calculateScores allGoodSignals)
        sampleReport false true false).1.cv_reports = [] ∧
    (saveAnalysis emptyStore 7 "cvtext" (calculateScores allGoodSignals)
        sampleReport false true false).2 = .error "score insert failed" :=
  ⟨rfl, rfl, rfl, rfl⟩

/-- C2 as amended: the three inserts of `POST /api/analysis/save` are
sequential and non-transactional.  A CV-insert failure leaves the store
unchanged; a score-insert failure leaves the freshly inserted CV row in
place (orphaned); a report-insert failure leaves both the CV and the score
row in place; all three rows are persisted exactly when all three inserts
succeed, and every failure path returns an error. -/
theorem saveAnalysis_sequential_inserts (st : Store) (userId : Nat)
    (txt : String) (scores : ScoreData) (report : ReportData)
    (cvFail scoreFail reportFail : Bool) :
    (cvFail = true →
      (saveAnalysis st userId txt scores report cvFail scoreFail
        reportFail).1 = st ∧
      (saveAnalysis st userId txt scores report cvFail scoreFail
        reportFail).2 = .error "cv insert failed") ∧
    (cvFail = false → scoreFail = true →
      (saveAnalysis st userId txt scores report cvFail scoreFail
        reportFail).1.cvs.length = st.cvs.length + 1 ∧
      (saveAnalysis st userId txt scores report cvFail scoreFail
        reportFail).1.cv_scores = st.cv_scores ∧
      (saveAnalysis st userId txt scores report cvFail scoreFail
        reportFail).1.cv_reports = st.cv_reports ∧
      (saveAnalysis st userId txt scores report cvFail scoreFail
        reportFail).2 = .error "score insert failed") ∧
    (cvFail = false → scoreFail = false → reportFail = true →
      (saveAnalysis st userId txt scores report cvFail scoreFail
        reportFail).1.cvs.length = st.cvs.length + 1 ∧
      (saveAnalysis st userId txt scores report cvFail scoreFail
        reportFail).1.cv_scores.length = st.cv_scores.length + 1 ∧
      (saveAnalysis st userId txt scores report cvFail scoreFail
        reportFail).1.cv_reports = st.cv_reports ∧
      (saveAnalysis st userId txt scores report cvFail scoreFail
        reportFail).2 = .error "report insert failed") ∧
    (cvFail = false → scoreFail = false → reportFail = false →
      (saveAnalysis st userId txt scores report cvFail scoreFail
        reportFail).1.cvs.length = st.cvs.length + 1 ∧
      (saveAnalysis st userId txt scores report cvFail scoreFail
        reportFail).1.cv_scores.length = st.cv_scores.length + 1 ∧
      (saveAnalysis st userId txt scores report cvFail scoreFail
        reportFail).1.cv_reports.length = st.cv_reports.length + 1 ∧
      (saveAnalysis st userId txt scores report cvFail scoreFail
        reportFail).2 = .ok st.nextId) := by
  refine ⟨?_, ?_, ?_, ?_⟩
  · rintro rfl
    exact ⟨rfl, rfl⟩
  · rintro rfl rfl
    refine ⟨?_, rfl, rfl, rfl⟩
    simp [saveAnalysis]
  · rintro rfl rfl rfl
    refine ⟨?_, ?_, rfl, rfl⟩ <;> simp [saveAnalysis]
  · rintro rfl rfl rfl
    refine ⟨?_, ?_, ?_, rfl⟩ <;> simp [saveAnalysis]

/-- Witness for C2's amended theorem: on the empty store with the score
insert failing, the CV table grows by one while the score and report tables
stay empty and an error is returned. -/
theorem saveAnalysis_sequential_inserts_witness :
    (saveAnalysis emptyStore 7 "cvtext" (calculateScores allGoodSignals)
        sampleReport false true false).1.cvs.length =
      emptyStore.cvs.length + 1 ∧
    (saveAnalysis emptyStore 7 "cvtext" (calculateScores allGoodSignals)
        sampleReport false true false).1.cv_scores = emptyStore.cv_scores ∧
    (saveAnalysis emptyStore 7 "cvtext" (calculateScores allGoodSignals)
        sampleReport false true false).1.cv_reports = emptyStore.cv_reports ∧
    (saveAnalysis emptyStore 7 "cvtext" (calculateScores allGoodSignals)
        sampleReport false true false).2 = .error "score insert failed" :=
  (saveAnalysis_sequential_inserts emptyStore 7 "cvtext"
    (calculateScores allGoodSignals) sampleReport false true false).2.1
    rfl rfl

/-- Membership is invariant under descending insertion. -/
lemma mem_insertByCreatedDesc (r x : ScoreRow) (l : List ScoreRow) :
    x ∈ insertByCreatedDesc r l ↔ x = r ∨ x ∈ l := by
  induction l with
  | nil => simp [insertByCreatedDesc]
  | cons y ys ih =>
    unfold insertByCreatedDesc
    split
    · simp [or_comm, or_assoc]
    · simp [ih]
      tauto

/-- The descending sort of the history query is a permutation: membership is
preserved. -/
lemma mem_sortByCreatedDesc (x : ScoreRow) (l : List ScoreRow) :
    x ∈ sortByCreatedDesc l ↔ x ∈ l := by
  induction l with
  | nil => simp [sortByCreatedDesc]
  | cons y ys ih => simp [sortByCreatedDesc, mem_insertByCreatedDesc, ih]

/-- C6: saving an analysis round-trips with history.  If the store's fresh
CV id is really fresh (no existing CV row carries it) and all three inserts
succeed, then reading history for that user afterwards returns a record
whose `overall_score` equals the saved `scores.overall` and whose
`ats_risk_level` equals the saved `scores.atsRisk`. -/
theorem save_then_history_roundtrip (st : Store) (userId : Nat)
    (txt : String) (scores : ScoreData) (report : ReportData)
    (hfresh : ∀ c ∈ st.cvs, c.id ≠ st.nextId) :
    ∃ item ∈ getHistory
        (saveAnalysis st userId txt scores report false false false).1 userId,
      item.overall_score = scores.overall ∧
      item.ats_risk_level = scores.atsRisk := by
  have hstore : (saveAnalysis st userId txt scores report false false false).1 =
      ⟨st.cvs ++ [⟨st.nextId, userId, txt, st.clock⟩],
       st.cv_scores ++ [⟨st.nextId, scores.«structure», scores.keyword,
         scores.impact, scores.alignment, scores.clarity, scores.overall,
         scores.atsRisk, st.clock + 1⟩],
       st.cv_reports ++ [⟨st.nextId, report.strengths, report.weaknesses,
         report.ats_risk_explanation⟩],
       st.nextId + 1, st.clock + 3⟩ := rfl
  rw [hstore]
  unfold getHistory
  set r : ScoreRow := ⟨st.nextId, scores.«structure», scores.keyword,
    scores.impact, scores.alignment, scores.clarity, scores.overall,
    scores.atsRisk, st.clock + 1⟩ with hr
  have hfind : (st.cvs ++ [(⟨st.nextId, userId, txt, st.clock⟩ : CvRow)]).find?
        (fun c => c.id = r.cv_id) =
      some (⟨st.nextId, userId, txt, st.clock⟩ : CvRow) := by
    rw [List.find?_append]
    have hnone : st.cvs.find? (fun c => c.id = r.cv_id) = none := by
      rw [List.find?_eq_none]
      intro c hc
      simp [hr]
      exact hfresh c hc
    rw [hnone]
    simp [hr]
  have hmem : r ∈ (st.cv_scores ++ [r]).filter fun q =>
      match (st.cvs ++ [(⟨st.nextId, userId, txt, st.clock⟩ : CvRow)]).find?
          (fun c => c.id = q.cv_id) with
      | some c => c.user_id = userId
      | none => false := by
    rw [List.mem_filter]
    refine ⟨by simp, ?_⟩
    rw [hfind]
    simp
  refine ⟨_, List.mem_map_of_mem _ ((mem_sortByCreatedDesc r _).2 hmem),
    rfl, rfl⟩

/-- Witness for C6: saving onto the empty store (fresh id trivially unused)
and reading history for the same user yields a record carrying the saved
overall score and risk tier. -/
theorem save_then_history_roundtrip_witness :
    ∃ item ∈ getHistory
        (saveAnalysis emptyStore 7 "cvtext" (calculateScores allGoodSignals)
          sampleReport false false false).1 7,
      item.overall_score = (calculateScores allGoodSignals).overall ∧
      item.ats_risk_level = (calculateScores allGoodSignals).atsRisk :=
  save_then_history_roundtrip emptyStore 7 "cvtext"
    (calculateScores allGoodSignals) sampleReport
    (by intro c hc; simp [emptyStore] at hc)

/-- When the provider text is empty or absent, the `||` fallback replaces it
with the default literal. -/
lemma orDefault_of_empty (t : Option String) (d : String) (h : emptyText t) :
    orDefault t d = d := by
  rcases h with h | h <;> subst h <;> simp [orDefault]

/-- A tiny concrete JSON parse oracle recognising only the two default
literals; used to realise the parse-oracle hypotheses on concrete runs. -/
def miniJsonParse (s : String) : Except Unit Json :=
  if s = emptyObjText then .ok (Json.obj [])
  else if s = emptyArrText then .ok (Json.arr [])
  else .error ()

/-- C9: for any parse oracle behaving like `JSON.parse` on the two default
literals, empty or absent provider text never fails a stage: `parseCV`
yields the empty object, the five sub-results of `detectSignals` each
default to the empty object, `explainScores` yields the empty object and
`optimizeBullets` yields the empty list; moreover a stage failure can only
come from non-empty text that the oracle rejects as malformed. -/
theorem empty_text_defaults (jsonParse : String → Except Unit Json)
    (hObj : jsonParse emptyObjText = .ok (Json.obj []))
    (hArr : jsonParse emptyArrText = .ok (Json.arr [])) :
    (∀ t, emptyText t → parseCVResult jsonParse t = .ok (Json.obj [])) ∧
    (∀ t1 t2 t3 t4 t5, emptyText t1 → emptyText t2 → emptyText t3 →
      emptyText t4 → emptyText t5 →
      detectSignalsResult jsonParse t1 t2 t3 t4 t5 =
        .ok (Json.obj [], Json.obj [], Json.obj [], Json.obj [],
          Json.obj [])) ∧
    (∀ t, emptyText t → explainScoresResult jsonParse t = .ok (Json.obj [])) ∧
    (∀ t, emptyText t →
      optimizeBulletsResult jsonParse t = .ok (Json.arr [])) ∧
    (∀ t, parseCVResult jsonParse t = .error () →
      ∃ s, t = some s ∧ s ≠ "" ∧ jsonParse s = .error ()) ∧
    (∀ t, optimizeBulletsResult jsonParse t = .error () →
      ∃ s, t = some s ∧ s ≠ "" ∧ jsonParse s = .error ()) := by
  refine ⟨?_, ?_, ?_, ?_, ?_, ?_⟩
  · intro t ht
    unfold parseCVResult parseStage
    rw [orDefault_of_empty t _ ht, hObj]
  · intro t1 t2 t3 t4 t5 h1 h2 h3 h4 h5
    unfold detectSignalsResult parseStage
    rw [orDefault_of_empty t1 _ h1, orDefault_of_empty t2 _ h2,
      orDefault_of_empty t3 _ h3, orDefault_of_empty t4 _ h4,
      orDefault_of_empty t5 _ h5]
    simp [hObj]
    rfl
  · intro t ht
    unfold explainScoresResult parseStage
    rw [orDefault_of_empty t _ ht, hObj]
  · intro t ht
    unfold optimizeBulletsResult parseStage
    rw [orDefault_of_empty t _ ht, hArr]
  · intro t herr
    unfold parseCVResult parseStage at herr
    rcases t with _ | s
    · simp [orDefault, hObj] at herr
    · by_cases hs : s = ""
      · subst hs
        simp [orDefault, hObj] at herr
      · refine ⟨s, rfl, hs, ?_⟩
        simpa [orDefault, hs] using herr
  · intro t herr
    unfold optimizeBulletsResult parseStage at herr
    rcases t with _ | s
    · simp [orDefault, hArr] at herr
    · by_cases hs : s = ""
      · subst hs
        simp [orDefault, hArr] at herr
      · refine ⟨s, rfl, hs, ?_⟩
        simpa [orDefault, hs] using herr

/-- Witness for C3: the bounds theorem instantiated at the all-worst input
pins the structure dimension inside [10, 20]. -/
theorem calculateScores_dimension_bounds_witness :
    10 ≤ (calculateScores worstSignals).«structure» ∧
    (calculateScores worstSignals).«structure» ≤ 20 :=
  ⟨(calculateScores_dimension_bounds worstSignals).1,
   (calculateScores_dimension_bounds worstSignals).2.1⟩

/-- Witness for C4: the boundary theorem instantiated at the all-worst
input characterises its "High" tier. -/
theorem calculateScores_risk_tier_boundaries_witness :
    (calculateScores worstSignals).atsRisk = "High" ↔
      (calculateScores worstSignals).overall < 50 :=
  (calculateScores_risk_tier_boundaries worstSignals).2.2.1

/-- Witness for C7: the determinism theorem instantiated at the all-good
input. -/
theorem calculateScores_deterministic_total_witness :
    calculateScores allGoodSignals = calculateScores allGoodSignals :=
  calculateScores_deterministic_total.1 allGoodSignals

/-- Witness for C9: with the concrete mini oracle, absent text makes
`parseCV` yield the empty object and empty-string text makes
`optimizeBullets` yield the empty list. -/
theorem empty_text_defaults_witness :
    parseCVResult miniJsonParse none = .ok (Json.obj []) ∧
    optimizeBulletsResult miniJsonParse (some "") = .ok (Json.arr []) :=
  ⟨(empty_text_defaults miniJsonParse rfl rfl).1 none (Or.inl rfl),
   (empty_text_defaults miniJsonParse rfl rfl).2.2.2.1 (some "")
     (Or.inr rfl)⟩

end CVIntel
